import Mathlib

/-!
Verification development for the pdf_metadata_extractor repository.

The embedding models `src/functions/metadata.py` (the JSON front end and
its helpers) and the shared helpers of `src/app.py` (the HTML front end).
Python machine behaviour is made explicit:

* Python strings are Lean `String` / `List Char`; the embedding covers
  ASCII text (Python `str.isdigit` and `int` agree on ASCII digits).
* Python exceptions are `Except String` with the message as payload;
  code that catches exceptions matches on the `Except` value.
* CPython `datetime` objects are modelled by their proleptic-Gregorian
  second count since 0001-01-01 00:00:00, the exact range CPython
  supports (years 1 to 9999); arithmetic leaving that range raises
  OverflowError, exactly as `datetime.__add__`/`__sub__` do.
* `json.loads`, `base64.b64decode` and `PdfReader` are external
  capabilities; the handler is parameterised over them.
-/

namespace PdfMeta

/-- ASCII decimal digit test: where `str.isdigit` and `int` parsing agree. -/
def isAsciiDigit (c : Char) : Bool :=
  48 ≤ c.toNat && c.toNat ≤ 57

/-- Numeric value of an ASCII digit character. -/
def digitVal (c : Char) : Nat :=
  c.toNat - 48

/-- Whitespace stripped by Python `int(str)` before parsing (ASCII part). -/
def isPySpace (c : Char) : Bool :=
  c = ' ' || c = '\t' || c = '\n' || c = '\r' || c = Char.ofNat 11 || c = Char.ofNat 12

/-- Numeric value of a list of ASCII digits, most significant first. -/
def natOfDigits (ds : List Char) : Nat :=
  ds.foldl (fun a c => a * 10 + (c.toNat - 48)) 0

/-- Python `int(s)` on a short ASCII string: strip whitespace, optional
sign, then one or more decimal digits; `none` models ValueError.
(Digit-group underscores need three or more characters, and this is
only applied to slices of at most two characters.) -/
def pyInt (s : List Char) : Option Int :=
  let t := ((s.dropWhile isPySpace).reverse.dropWhile isPySpace).reverse
  match t with
  | [] => none
  | c :: rest =>
    let neg : Bool := c = '-'
    let ds : List Char := if c = '-' || c = '+' then rest else t
    if ds ≠ [] ∧ ds.all isAsciiDigit then
      some (if neg then -(natOfDigits ds : Int) else (natOfDigits ds : Int))
    else none

/-- `_digits(s, n)` from metadata.py lines 44-47: `None` if fewer than
`n` characters or the first `n` are not all digits, else their value. -/
def _digits (s : List Char) (n : Nat) : Option Nat :=
  if s.length < n ∨ ¬ (s.take n).all isAsciiDigit then none
  else some (natOfDigits (s.take n))

/-- Gregorian leap year. -/
def isLeap (y : Nat) : Bool :=
  (y % 4 = 0 && y % 100 ≠ 0) || y % 400 = 0

/-- Days in a month, as `datetime` validates them. -/
def daysInMonth (y mo : Nat) : Nat :=
  if mo = 2 then (if isLeap y then 29 else 28)
  else if mo = 4 ∨ mo = 6 ∨ mo = 9 ∨ mo = 11 then 30
  else 31

/-- The argument validation performed by the `datetime` constructor:
ValueError outside these bounds (MINYEAR = 1, MAXYEAR = 9999). -/
def isValidDateTime (y mo d hh mm ss : Nat) : Bool :=
  1 ≤ y && y ≤ 9999 && 1 ≤ mo && mo ≤ 12 && 1 ≤ d && d ≤ daysInMonth y mo &&
  hh ≤ 23 && mm ≤ 59 && ss ≤ 59

/-- Day number of a civil date, with 0001-01-01 as day 0
(proleptic Gregorian, the calendar `datetime` uses). -/
def daysOfCivil (y mo d : Nat) : Nat :=
  let y' := if mo ≤ 2 then y - 1 else y
  let era := y' / 400
  let yoe := y' % 400
  let mp := if mo > 2 then mo - 3 else mo + 9
  let doy := (153 * mp + 2) / 5 + (d - 1)
  let doe := yoe * 365 + yoe / 4 - yoe / 100 + doy
  era * 146097 + doe - 306

/-- Inverse of `daysOfCivil`: civil date of a day number (day 0 is
0001-01-01). -/
def civilOfDays (day : Nat) : Nat × Nat × Nat :=
  let z := day + 306
  let era := z / 146097
  let doe := z % 146097
  let yoe := (doe - doe / 1460 + doe / 36524 - doe / 146096) / 365
  let y := yoe + era * 400
  let doy := doe - (365 * yoe + yoe / 4 - yoe / 100)
  let mp := (5 * doy + 2) / 153
  let d := doy - (153 * mp + 2) / 5 + 1
  let m := if mp < 10 then mp + 3 else mp - 9
  (if m ≤ 2 then y + 1 else y, m, d)

/-- Seconds of a wall-clock datetime since 0001-01-01 00:00:00, the
instant scale on which the model does `datetime` arithmetic. -/
def secsOfDateTime (y mo d hh mm ss : Nat) : Int :=
  (daysOfCivil y mo d : Int) * 86400 + hh * 3600 + mm * 60 + ss

/-- Largest representable second: 9999-12-31 23:59:59 (`datetime.max`
at second precision). -/
def maxSec : Int := secsOfDateTime 9999 12 31 23 59 59

/-- Left zero-pad a numeral to two digits (strftime %m %d %H %M %S). -/
def pad2 (n : Nat) : String :=
  if n < 10 then "0" ++ toString n else toString n

/-- Left zero-pad a numeral to four digits (strftime %Y for the years
a successful parse can produce, all of which are four-digit here). -/
def pad4 (n : Nat) : String :=
  if n < 10 then "000" ++ toString n
  else if n < 100 then "00" ++ toString n
  else if n < 1000 then "0" ++ toString n
  else toString n

/-- `strftime("%Y-%m-%d %H:%M:%S %Z")` of an in-range instant carrying
the fixed UTC+05:30 zone, whose `tzname()` is "UTC+05:30". -/
def fmtStamp (t : Int) : String :=
  let dy := t.toNat / 86400
  let sod := t.toNat % 86400
  let c := civilOfDays dy
  pad4 c.1 ++ "-" ++ pad2 c.2.1 ++ "-" ++ pad2 c.2.2 ++ " " ++
    pad2 (sod / 3600) ++ ":" ++ pad2 (sod % 3600 / 60) ++ ":" ++ pad2 (sod % 60) ++
    " UTC+05:30"

/-- Offset of the fixed target zone UTC+05:30, in seconds. -/
def istOffSec : Int := 19800

/-- The OverflowError text of CPython datetime arithmetic. -/
def overflowMsg : String := "OverflowError: date value out of range"

/-- metadata.py lines 58-71: the timezone-suffix interpretation, as the
signed offset of the zone in minutes (0 stands for `timezone.utc`).
The characters after the 14 date digits are examined: if nonempty and
starting with a sign, two `int` parses are attempted on slices [1:3]
and, when at least 6 characters remain, [4:6]; any exception inside
(ValueError from `int`, ValueError from `timezone` on an offset not
strictly between -24 and +24 hours) is caught and yields UTC. -/
def tzOffsetMinutes (tzp : List Char) : Int :=
  match tzp with
  | [] => 0
  | sign :: _ =>
    if sign = '+' ∨ sign = '-' then
      match pyInt ((tzp.drop 1).take 2),
            (if tzp.length ≥ 6 then pyInt ((tzp.drop 4).take 2) else some 0) with
      | some tzh, some tzm =>
        let off := tzh * 60 + tzm
        let off := if sign = '-' then -off else off
        if -1440 < off ∧ off < 1440 then off else 0
      | _, _ => 0
    else 0

/-- metadata.py lines 41-42: the leading `D:` marker is stripped and the
local `date_str` is rebound to the stripped text. -/
def stripD (s : String) : List Char :=
  if s.data.take 2 = ['D', ':'] then s.data.drop 2 else s.data

/-- The body of `to_ist` after the empty-string check and the `D:`
strip (metadata.py lines 44-77), on the stripped character list.
`.error` is an exception escaping the function (the uncaught
OverflowError of `dt.astimezone(ist)` at line 77), `.ok` a returned
string.  The `datetime(...)` call at line 73 sees `None` hour, minute
or second as TypeError and out-of-range fields as ValueError, both
caught at line 74; the rebinding at line 42 makes every such path
return the `D:`-stripped text. -/
def to_ist_core (cs : List Char) : Except String String :=
  let y := _digits cs 4
  let mo := if y.isSome then _digits (cs.drop 4) 2 else none
  let d := if mo.isSome then _digits (cs.drop 6) 2 else none
  let hh := if d.isSome then _digits (cs.drop 8) 2 else some 0
  let mm := if d.isSome then _digits (cs.drop 10) 2 else some 0
  let ss := if d.isSome then _digits (cs.drop 12) 2 else some 0
  match y, mo, d with
  | some y, some mo, some d =>
    let off := tzOffsetMinutes (cs.drop 14)
    match hh, mm, ss with
    | some hh, some mm, some ss =>
      if isValidDateTime y mo d hh mm ss then
        -- astimezone: subtract the source offset, then add the target one;
        -- each step must stay within the representable datetime range.
        let t1 : Int := secsOfDateTime y mo d hh mm ss - off * 60
        if 0 ≤ t1 ∧ t1 ≤ maxSec then
          let t2 : Int := t1 + istOffSec
          if 0 ≤ t2 ∧ t2 ≤ maxSec then .ok (fmtStamp t2)
          else .error overflowMsg
        else .error overflowMsg
      else .ok (String.mk cs)
    | _, _, _ => .ok (String.mk cs)
  | _, _, _ => .ok (String.mk cs)

/-- `to_ist` from metadata.py lines 38-77: empty input short-circuits,
a leading `D:` is stripped (rebinding the local), then the core parse
and conversion run on the stripped text. -/
def to_ist (date_str : String) : Except String String :=
  if date_str = "" then .ok "" else to_ist_core (stripD date_str)

/-- Python values as they cross the JSON boundary: the possible results
of `json.loads` and the contents of the event dictionary. -/
inductive PyVal where
  | none
  | bool (b : Bool)
  | int (n : Int)
  | str (s : String)
  | list (xs : List PyVal)
  | dict (kvs : List (String × PyVal))

mutual

/-- Python `repr` of a value (string escaping elided; only the shapes
reachable in the claims are ever evaluated). -/
def pyRepr : PyVal → String
  | .none => "None"
  | .bool true => "True"
  | .bool false => "False"
  | .int n => toString n
  | .str s => String.singleton (Char.ofNat 39) ++ s ++ String.singleton (Char.ofNat 39)
  | .list xs => "[" ++ String.intercalate ", " (pyReprList xs) ++ "]"
  | .dict kvs => "\x7b" ++ String.intercalate ", " (pyReprKVs kvs) ++ "\x7d"

def pyReprList : List PyVal → List String
  | [] => []
  | v :: vs => pyRepr v :: pyReprList vs

def pyReprKVs : List (String × PyVal) → List String
  | [] => []
  | (k, v) :: kvs =>
    (String.singleton (Char.ofNat 39) ++ k ++ String.singleton (Char.ofNat 39) ++ ": "
      ++ pyRepr v) :: pyReprKVs kvs

end

/-- `str(value)` on a `PyVal`: a string is itself, everything else its
representation. -/
def pyStrOf : PyVal → String
  | .str s => s
  | v => pyRepr v

/-- `_to_str` from metadata.py lines 10-18 (and the identical `to_str`
of app.py lines 164-172) restricted to `PyVal` inputs: `None` becomes
the empty string, anything else its display form.  The bytes branch
(UTF-8 decode with replacement) concerns values that never cross the
JSON boundary and has no `PyVal` constructor. -/
def _to_str : PyVal → String
  | .none => ""
  | v => pyStrOf v

/-- Python truthiness of a `PyVal` (`if not x`, `x or y`). -/
def pyTruthy : PyVal → Bool
  | .none => false
  | .bool b => b
  | .int n => n != 0
  | .str s => s != ""
  | .list xs => !xs.isEmpty
  | .dict kvs => !kvs.isEmpty

/-- Python `==` restricted to the comparisons the handler performs
(`event.get("httpMethod") == "OPTIONS"` and the like): a string equals
exactly the same string and no value of another shape. -/
def pyEqStr (v : PyVal) (s : String) : Bool :=
  match v with
  | .str t => t == s
  | _ => false

/-- One probed access point of the embedded-metadata object: the
attribute may be missing, hold a plain value, or hold a callable whose
zero-argument invocation returns a value or raises. -/
inductive AccessPoint where
  | absent
  | value (v : PyVal)
  | callable (r : Except String PyVal)

/-- The embedded-metadata (XMP) object: the eight named attributes read
by the field overlay (`None`/missing collapse to `Option.none`, exactly
as `getattr(xmp, attr, None)` with the `is not None` test does) and the
three access points probed for the raw XML. A pypdf XmpInformation
instance defines no truthiness override, so a present object is truthy. -/
structure XmpObj where
  dc_title : Option PyVal
  dc_creator : Option PyVal
  dc_description : Option PyVal
  pdf_keywords : Option PyVal
  xmp_creatortool : Option PyVal
  xmp_create_date : Option PyVal
  xmp_modify_date : Option PyVal
  pdf_producer : Option PyVal
  get_xml : AccessPoint
  xml : AccessPoint
  xmpmeta : AccessPoint

/-- One step of the probing loop body of `_extract_xmp_xml` (metadata.py
lines 25-33): `some r` ends the loop returning `r`, `none` falls through
to the next attribute.  A callable is invoked (an exception continues the
loop, any returned value is coerced); a plain non-None value is coerced. -/
def probeStep (ap : AccessPoint) : Option String :=
  match ap with
  | .absent => none
  | .value .none => none
  | .value v => some (_to_str v)
  | .callable (.ok v) => some (_to_str v)
  | .callable (.error _) => none

/-- `_extract_xmp_xml` from metadata.py lines 21-34: probe `get_xml`,
`xml`, `xmpmeta` in order, first conclusive probe wins, else `None`. -/
def _extract_xmp_xml (xmp : Option XmpObj) : Option String :=
  match xmp with
  | Option.none => Option.none
  | some x =>
    match probeStep x.get_xml with
    | some r => some r
    | Option.none =>
      match probeStep x.xml with
      | some r => some r
      | Option.none =>
        match probeStep x.xmpmeta with
        | some r => some r
        | Option.none => Option.none

/-- `extract_xmp_xml` from app.py lines 175-188, textually identical to
the metadata.py routine. -/
def app_extract_xmp_xml (xmp : Option XmpObj) : Option String :=
  match xmp with
  | Option.none => Option.none
  | some x =>
    match probeStep x.get_xml with
    | some r => some r
    | Option.none =>
      match probeStep x.xml with
      | some r => some r
      | Option.none =>
        match probeStep x.xmpmeta with
        | some r => some r
        | Option.none => Option.none

/-- First value bound to a key in an association list; Python dict keys
are unique, so this is the dict lookup. -/
def lookupS {α : Type} (d : List (String × α)) (k : String) : Option α :=
  match d with
  | [] => Option.none
  | (k0, v0) :: rest => if k0 = k then some v0 else lookupS rest k

/-- `info.get(key, "")` on the coerced information dictionary. -/
def iget (info : List (String × String)) (k : String) : String :=
  (lookupS info k).getD ""

/-- Python dict assignment `d[k] = v`: update in place when the key is
present (keeping its position), append otherwise. -/
def dictSet (d : List (String × String)) (k v : String) : List (String × String) :=
  match d with
  | [] => [(k, v)]
  | (k0, v0) :: rest => if k0 = k then (k0, v) :: rest else (k0, v0) :: dictSet rest k v

/-- The `xmp_map` dict literal of metadata.py lines 92-101 (identical in
app.py lines 205-214), paired with the attribute read `getattr`
performs: label and attribute value, in insertion order. -/
def xmpItems (x : XmpObj) : List (String × Option PyVal) :=
  [("Title (XMP)", x.dc_title),
   ("Creator (XMP)", x.dc_creator),
   ("Description (XMP)", x.dc_description),
   ("Keywords (XMP)", x.pdf_keywords),
   ("CreatorTool (XMP)", x.xmp_creatortool),
   ("CreateDate (XMP)", x.xmp_create_date),
   ("ModifyDate (XMP)", x.xmp_modify_date),
   ("Producer (XMP)", x.pdf_producer)]

/-- The `for label, attr in xmp_map.items()` loop of metadata.py lines
102-105: each present attribute is coerced and assigned. -/
def applyXmp (x : XmpObj) (fields : List (String × String)) : List (String × String) :=
  (xmpItems x).foldl
    (fun acc p =>
      match p.2 with
      | some v => dictSet acc p.1 (_to_str v)
      | Option.none => acc)
    fields

/-- The entries the overlay contributes when starting from a dict that
contains none of the eight labels: present attributes in order. -/
def xmpEntries (x : XmpObj) : List (String × String) :=
  (xmpItems x).filterMap (fun p => p.2.map (fun v => (p.1, _to_str v)))

/-- `_build_parsed_fields` from metadata.py lines 37-107: the base dict
literal (whose two date values run through `to_ist` and can therefore
let an OverflowError escape, hence the `Except`), then the XMP overlay
when the object is present (`if xmp:`; an XmpInformation object is
always truthy). -/
def _build_parsed_fields (info : List (String × String)) (xmp : Option XmpObj) :
    Except String (List (String × String)) :=
  match to_ist (iget info "/CreationDate") with
  | .error e => .error e
  | .ok cd =>
  match to_ist (iget info "/ModDate") with
  | .error e => .error e
  | .ok md =>
  let fields :=
    [("Title", iget info "/Title"),
     ("Author", iget info "/Author"),
     ("Subject", iget info "/Subject"),
     ("Keywords", iget info "/Keywords"),
     ("Creator", iget info "/Creator"),
     ("Producer", iget info "/Producer"),
     ("CreationDate (IST)", cd),
     ("ModDate (IST)", md),
     ("Trapped", iget info "/Trapped")]
  match xmp with
  | Option.none => .ok fields
  | some x => .ok (applyXmp x fields)

/-- `build_parsed_fields` from app.py lines 191-220: same base fields
but with the raw date strings (no `to_ist`), then the same overlay. -/
def app_build_parsed_fields (info : List (String × String)) (xmp : Option XmpObj) :
    List (String × String) :=
  let fields :=
    [("Title", iget info "/Title"),
     ("Author", iget info "/Author"),
     ("Subject", iget info "/Subject"),
     ("Keywords", iget info "/Keywords"),
     ("Creator", iget info "/Creator"),
     ("Producer", iget info "/Producer"),
     ("CreationDate", iget info "/CreationDate"),
     ("ModDate", iget info "/ModDate"),
     ("Trapped", iget info "/Trapped")]
  match xmp with
  | Option.none => fields
  | some x => applyXmp x fields

/-- What the parser boundary hands back for one document: the values
the handler reads off the `PdfReader` (metadata.py lines 144-152). -/
structure Pdf where
  sizeBytes : Nat
  pageCount : Nat
  info : List (String × String)
  xmp : Option XmpObj

/-- The external capabilities the handler calls: `json.loads`,
`base64.b64decode(...).decode("utf-8", errors="replace")` on the
transport body, and the whole `b64decode(file_b64)` + `PdfReader`
document-opening step.  `.error` carries the exception text. -/
structure Oracle where
  jloads : String → Except String PyVal
  b64text : String → Except String String
  pdfExtract : PyVal → Except String Pdf

/-- A returned response record (`_response`, metadata.py lines 110-120);
`body` holds the value passed to `json.dumps`. -/
structure Resp where
  statusCode : Nat
  headers : List (String × String)
  body : PyVal

/-- The constant header set of `_response`. -/
def respHeaders : List (String × String) :=
  [("Content-Type", "application/json"),
   ("Access-Control-Allow-Origin", "*"),
   ("Access-Control-Allow-Headers", "Content-Type"),
   ("Access-Control-Allow-Methods", "POST, OPTIONS")]

/-- `_response(status, body)`. -/
def response (status : Nat) (body : PyVal) : Resp :=
  ⟨status, respHeaders, body⟩

/-- `event.get(k)`: the bound value, defaulting to `None`. -/
def dget (d : List (String × PyVal)) (k : String) : PyVal :=
  (lookupS d k).getD .none

/-- The body-decoding try block of `handler` (metadata.py lines 130-136):
`event.get("body") or ""`, an optional transport base64 decode, then
`json.loads`; `none` is the caught exception (a non-string body makes
`b64decode`, or `json.loads`, raise TypeError, also caught here). -/
def bodyParse (o : Oracle) (event : List (String × PyVal)) : Option PyVal :=
  let b := dget event "body"
  let bv := if pyTruthy b then b else .str ""
  match bv with
  | .str s =>
    if pyTruthy (dget event "isBase64Encoded") then
      match o.b64text s with
      | .ok t => (o.jloads t).toOption
      | .error _ => Option.none
    else (o.jloads s).toOption
  | _ => Option.none

/-- `handler` from metadata.py lines 123-159.  `.error` is an exception
escaping the handler: `payload.get("file_base64")` at line 138 runs
outside any try block, so a payload that is valid JSON but not an
object raises AttributeError out of the function. -/
def handler (o : Oracle) (event : List (String × PyVal)) : Except String Resp :=
  if pyEqStr (dget event "httpMethod") "OPTIONS" then
    .ok (response 200 (.dict [("ok", .bool true)]))
  else if !pyEqStr (dget event "httpMethod") "POST" then
    .ok (response 405 (.dict [("error", .str "Use POST")]))
  else
    match bodyParse o event with
    | Option.none => .ok (response 400 (.dict [("error", .str "Invalid JSON body")]))
    | some (PyVal.dict kvs) =>
      let file_b64 := dget kvs "file_base64"
      let fn := dget kvs "filename"
      let filename := if pyTruthy fn then fn else .str "upload.pdf"
      if !pyTruthy file_b64 then
        .ok (response 400 (.dict [("error", .str "Missing file_base64")]))
      else
        match o.pdfExtract file_b64 with
        | .error msg =>
          .ok (response 400 (.dict [("error", .str ("Failed to read PDF metadata: " ++ msg))]))
        | .ok pdf =>
          match _build_parsed_fields pdf.info pdf.xmp with
          | .error msg =>
            .ok (response 400 (.dict [("error", .str ("Failed to read PDF metadata: " ++ msg))]))
          | .ok parsed =>
            .ok (response 200 (.dict
              [("ok", .bool true),
               ("result", .dict
                 [("filename", filename),
                  ("size_bytes", .int pdf.sizeBytes),
                  ("page_count", .int pdf.pageCount),
                  ("parsed", .dict (parsed.map (fun p => (p.1, PyVal.str p.2)))),
                  ("raw_info", .dict (pdf.info.map (fun p => (p.1, PyVal.str p.2)))),
                  ("xmp_xml",
                    match _extract_xmp_xml pdf.xmp with
                    | some s => .str s
                    | Option.none => .none)])]))
    | some _ => .error "AttributeError: payload object has no attribute get"

/-- An access point the probing loop passes over: a missing attribute,
an attribute holding `None`, or a callable that raises. -/
def apSkipped (ap : AccessPoint) : Prop :=
  ap = .absent ∨ ap = .value PyVal.none ∨ ∃ e, ap = .callable (Except.error e)

/-- An access point that concludes the probe with result `r`: a callable
returning a value (coerced), or a non-`None` attribute (coerced). -/
def apYields (ap : AccessPoint) (r : String) : Prop :=
  (∃ v, ap = .callable (Except.ok v) ∧ r = _to_str v) ∨
  (∃ v, ap = .value v ∧ v ≠ PyVal.none ∧ r = _to_str v)

/-- The nine labels of the metadata.py base dict (dates IST-suffixed). -/
def baseLabelsIST : List String :=
  ["Title", "Author", "Subject", "Keywords", "Creator", "Producer",
   "CreationDate (IST)", "ModDate (IST)", "Trapped"]

/-- The nine labels of the app.py base dict (raw date labels). -/
def baseLabelsApp : List String :=
  ["Title", "Author", "Subject", "Keywords", "Creator", "Producer",
   "CreationDate", "ModDate", "Trapped"]

/-- The apostrophe character of the PDF timezone suffix. -/
def apos : Char := Char.ofNat 39

/-- The wall-clock seconds of 2023-06-15 12:00:00, the datetime the
quantified timezone statements revolve around. -/
def noonSecs : Int := secsOfDateTime 2023 6 15 12 0 0

/-- An embedded-metadata object whose only access point is a callable
returning `None` (witness object for the successful-but-empty call). -/
def xCallNone : XmpObj :=
  ⟨some (.str "t"), Option.none, Option.none, Option.none, Option.none,
   Option.none, Option.none, Option.none,
   .callable (.ok PyVal.none), .absent, .absent⟩

/-- An embedded-metadata object with seven of the eight attributes
present (the creator attribute missing) and no XML access points. -/
def xSeven : XmpObj :=
  ⟨some (.str "a"), Option.none, some (.str "b"), some (.str "c"),
   some (.str "d"), some (.str "e"), some (.str "f"), some (.str "g"),
   .absent, .absent, .absent⟩

/-- An embedded-metadata object exposing none of the probed points. -/
def xBare : XmpObj :=
  ⟨Option.none, Option.none, Option.none, Option.none, Option.none,
   Option.none, Option.none, Option.none, .absent, .absent, .absent⟩

/-- A concrete oracle: its `json.loads` recognises only the text
`null`, which real `json.loads` maps to `None`. -/
def oracleNull : Oracle :=
  ⟨fun s => if s = "null" then .ok PyVal.none else .error "ValueError",
   fun _ => .error "binascii.Error",
   fun _ => .error "not a PDF"⟩

/-- A POST event carrying the body `null`: valid JSON, not an object. -/
def eventNull : List (String × PyVal) :=
  [("httpMethod", .str "POST"), ("body", .str "null")]

/-- An oracle whose `json.loads` always yields the empty JSON object
and whose extraction succeeds on a fixed one-page document. -/
def oracleObj : Oracle :=
  ⟨fun _ => .ok (PyVal.dict []),
   fun s => .ok s,
   fun _ => .ok ⟨4, 1, [], Option.none⟩⟩

/-- An OPTIONS pre-flight event with a nonsense body. -/
def eventOptions : List (String × PyVal) :=
  [("httpMethod", .str "OPTIONS"), ("body", .int 7)]

/-- A GET event. -/
def eventGet : List (String × PyVal) :=
  [("httpMethod", .str "GET")]

/-- A POST event whose body is the empty JSON object. -/
def eventEmptyObj : List (String × PyVal) :=
  [("httpMethod", .str "POST"), ("body", .str "\x7b\x7d")]

/-- A POST event with an arbitrary one-character body. -/
def eventPost : List (String × PyVal) :=
  [("httpMethod", .str "POST"), ("body", .str "x")]

/-- An oracle whose payload carries a file but whose document parse
fails with the message pypdf gives for truncated files. -/
def oracleFail : Oracle :=
  ⟨fun _ => .ok (PyVal.dict [("file_base64", .str "AAAA")]),
   fun s => .ok s,
   fun _ => .error "EOF marker not found"⟩

/-- An oracle whose payload carries a file and whose document parse
succeeds on a three-byte, one-page document with no metadata. -/
def oracleGood : Oracle :=
  ⟨fun _ => .ok (PyVal.dict [("file_base64", .str "AAAA")]),
   fun s => .ok s,
   fun _ => .ok ⟨3, 1, [], Option.none⟩⟩

/-- The year, month or day parse of `to_ist` fails on this stripped
text: too few characters or a non-digit among the mandatory fields. -/
def ymdFails (cs : List Char) : Prop :=
  _digits cs 4 = Option.none ∨ _digits (cs.drop 4) 2 = Option.none ∨
    _digits (cs.drop 6) 2 = Option.none

/-- All six fields of this stripped text parse but do not form a valid
calendar date/time, so the `datetime` constructor raises ValueError. -/
def calendarRejects (cs : List Char) : Prop :=
  ∃ y mo d hh mm ss,
    _digits cs 4 = some y ∧ _digits (cs.drop 4) 2 = some mo ∧
    _digits (cs.drop 6) 2 = some d ∧ _digits (cs.drop 8) 2 = some hh ∧
    _digits (cs.drop 10) 2 = some mm ∧ _digits (cs.drop 12) 2 = some ss ∧
    isValidDateTime y mo d hh mm ss = false

end PdfMeta

namespace PdfMeta

/-! ## Helper lemmas -/

/-- A skipped access point makes the loop body fall through. -/
theorem probeStep_of_skipped {ap : AccessPoint} (h : apSkipped ap) :
    probeStep ap = Option.none := by
  rcases h with rfl | rfl | ⟨e, rfl⟩ <;> rfl

/-- A conclusive access point ends the loop with its coerced value. -/
theorem probeStep_of_yields {ap : AccessPoint} {r : String} (h : apYields ap r) :
    probeStep ap = some r := by
  rcases h with ⟨v, rfl, rfl⟩ | ⟨v, rfl, hv, rfl⟩
  · rfl
  · cases v <;> first | rfl | exact absurd rfl hv

/-- The loop body falls through exactly on skipped access points. -/
theorem probeStep_eq_none_iff (ap : AccessPoint) :
    probeStep ap = Option.none ↔ apSkipped ap := by
  constructor
  · intro h
    cases ap with
    | absent => exact Or.inl rfl
    | value v =>
      cases v <;> simp [probeStep] at h
      exact Or.inr (Or.inl rfl)
    | callable r =>
      cases r with
      | ok v => simp [probeStep] at h
      | error e => exact Or.inr (Or.inr ⟨e, rfl⟩)
  · exact probeStep_of_skipped

/-- The two front ends define the XML probe identically. -/
theorem app_extract_eq (xm : Option XmpObj) :
    app_extract_xmp_xml xm = _extract_xmp_xml xm := rfl

/-- Assigning a fresh key appends the pair at the end. -/
theorem dictSet_of_not_mem {d : List (String × String)} {k : String} (v : String)
    (h : k ∉ d.map Prod.fst) : dictSet d k v = d ++ [(k, v)] := by
  induction d with
  | nil => rfl
  | cons p rest ih =>
    rcases p with ⟨k0, v0⟩
    simp only [List.map_cons, List.mem_cons] at h
    push_neg at h
    simp only [dictSet, if_neg (Ne.symm h.1)]
    rw [ih h.2]
    rfl

/-- Appending entries does not disturb lookups of existing keys. -/
theorem lookupS_append_left {d e : List (String × String)} {l : String}
    (h : l ∈ d.map Prod.fst) : lookupS (d ++ e) l = lookupS d l := by
  induction d with
  | nil => simp at h
  | cons p rest ih =>
    simp only [List.map_cons, List.mem_cons] at h
    by_cases hp : p.1 = l
    · simp [lookupS, hp]
    · have : l ∈ rest.map Prod.fst := by
        rcases h with h | h
        · exact absurd h.symm hp
        · exact h
      simp [lookupS, hp, ih this]

/-- The overlay loop over labels that are mutually distinct and absent
from the accumulator appends exactly the present attributes, in order. -/
theorem foldl_overlay_append :
    ∀ (items : List (String × Option PyVal)) (fields : List (String × String)),
      (items.map Prod.fst).Nodup →
      (∀ l ∈ items.map Prod.fst, l ∉ fields.map Prod.fst) →
      items.foldl
          (fun acc p =>
            match p.2 with
            | some v => dictSet acc p.1 (_to_str v)
            | Option.none => acc)
          fields
        = fields ++ items.filterMap (fun p => p.2.map (fun v => (p.1, _to_str v))) := by
  intro items
  induction items with
  | nil => intro fields _ _; simp
  | cons p rest ih =>
    intro fields hnd hdisj
    simp only [List.map_cons, List.nodup_cons] at hnd
    obtain ⟨hp, hnd⟩ := hnd
    cases hv : p.2 with
    | none =>
      simp only [List.foldl_cons, hv, List.filterMap_cons, Option.map_none']
      exact ih fields hnd (fun l hl => hdisj l (List.mem_cons_of_mem _ hl))
    | some v =>
      simp only [List.foldl_cons, hv, List.filterMap_cons, Option.map_some']
      rw [dictSet_of_not_mem _ (hdisj p.1 (List.mem_cons_self _ _))]
      rw [ih (fields ++ [(p.1, _to_str v)]) hnd ?_]
      · simp
      · intro l hl
        have h1 := hdisj l (List.mem_cons_of_mem _ hl)
        have h2 : l ≠ p.1 := fun hle => hp (hle ▸ hl)
        simp [h1, h2]

/-- The overlay entries carry exactly the labels of present attributes. -/
theorem keys_filterMap_overlay (items : List (String × Option PyVal)) :
    (items.filterMap (fun p => p.2.map (fun v => (p.1, _to_str v)))).map Prod.fst
      = (items.filter (fun p => p.2.isSome)).map Prod.fst := by
  induction items with
  | nil => rfl
  | cons p rest ih =>
    cases hv : p.2 with
    | none => simp [List.filterMap_cons, List.filter_cons, hv, ih]
    | some v => simp [List.filterMap_cons, List.filter_cons, hv, ih]

/-! ## C1 -/

/-- C1, counterexample: on the incomplete input `D:2023` the function
returns `2023` (line 42 rebinds `date_str` to the stripped text before
the failure return at line 56), not the original string `D:2023` the
claim demands. -/
theorem to_ist_keeps_marker_false :
    to_ist "D:2023" = Except.ok "2023" ∧
      to_ist "D:2023" ≠ Except.ok "D:2023" :=
  ⟨rfl, fun h => absurd (Except.ok.inj h) (by decide)⟩

/-- C1 (amended): the empty string maps to the empty string, and every
input whose year, month or day is missing or non-numeric, or whose
parsed fields are rejected by the calendar, is returned with any
leading `D:` marker stripped (unchanged when it carried no marker). -/
theorem to_ist_failure_degrades :
    (to_ist "" = Except.ok "") ∧
    ∀ s : String, s ≠ "" → (ymdFails (stripD s) ∨ calendarRejects (stripD s)) →
      to_ist s = Except.ok (String.mk (stripD s)) := by
  refine ⟨rfl, fun s hs h => ?_⟩
  unfold to_ist
  rw [if_neg hs]
  unfold to_ist_core
  dsimp only
  rcases h with (h4 | h6 | h8) | ⟨y, mo, d, hh, mm, ss, h1, h2, h3, h4, h5, h6, hbad⟩
  · simp [h4]
  · cases hy : _digits (stripD s) 4 <;> simp [hy, h6]
  · cases hy : _digits (stripD s) 4 <;>
      cases hmo : _digits ((stripD s).drop 4) 2 <;> simp [hy, hmo, h8]
  · simp [h1, h2, h3, h4, h5, h6, hbad]

/-- C1 witness: the invalid month/day example from the specification,
returned with the marker stripped. -/
theorem to_ist_failure_degrades_w :
    to_ist "D:20231332000000" = Except.ok "20231332000000" :=
  to_ist_failure_degrades.2 "D:20231332000000" (by decide)
    (Or.inr ⟨2023, 13, 32, 0, 0, 0, rfl, rfl, rfl, rfl, rfl, rfl, rfl⟩)

/-! ## C2 -/

/-- C2: with year, month and day parsed but the hour absent, `_digits`
yields `None`, `datetime` raises TypeError (caught at line 74), and the
stripped input comes back; the hour does not default to 0 as the
specification intends with its (dead) `else 0` branch, so the input
`D:20230615` does not produce the 2023-06-15 00:00:00 UTC timestamp
shifted to UTC+05:30. -/
theorem to_ist_missing_time_returns_input :
    to_ist "D:20230615" = Except.ok "20230615" ∧
      to_ist "D:20230615" ≠ Except.ok "2023-06-15 05:30:00 UTC+05:30" :=
  ⟨rfl, fun h => absurd (Except.ok.inj h) (by decide)⟩

/-! ## C3 -/

/-- Digits are not `int()`-strippable whitespace. -/
theorem digit_not_space {ch : Char} (h : isAsciiDigit ch = true) : isPySpace ch = false := by
  cases hsp : isPySpace ch
  · rfl
  · exfalso
    unfold isPySpace at hsp
    simp only [Bool.or_eq_true, decide_eq_true_eq] at hsp
    rcases hsp with ((((rfl | rfl) | rfl) | rfl) | rfl) | rfl <;> simp [isAsciiDigit] at h

/-- Digits are not the minus sign. -/
theorem digit_ne_minus {ch : Char} (h : isAsciiDigit ch = true) : ch ≠ '-' :=
  fun hch => absurd (hch ▸ h) (by decide)

/-- Digits are not the plus sign. -/
theorem digit_ne_plus {ch : Char} (h : isAsciiDigit ch = true) : ch ≠ '+' :=
  fun hch => absurd (hch ▸ h) (by decide)

/-- `int()` on two digit characters yields their two-digit value. -/
theorem pyInt_two_digits {a b : Char} (ha : isAsciiDigit a = true)
    (hb : isAsciiDigit b = true) :
    pyInt [a, b] = some ((digitVal a * 10 + digitVal b : Nat) : Int) := by
  have hsa := digit_not_space ha
  have hsb := digit_not_space hb
  have ht : ((List.dropWhile isPySpace [a, b]).reverse.dropWhile isPySpace).reverse
      = [a, b] := by
    simp [List.dropWhile_cons, hsa, hsb]
  unfold pyInt
  rw [ht]
  dsimp only
  rw [show (decide (a = '-') || decide (a = '+')) = false by
    simp [digit_ne_minus ha, digit_ne_plus ha]]
  rw [show (decide (a = '-')) = false by simp [digit_ne_minus ha]]
  rw [if_pos ⟨List.cons_ne_nil _ _, by simp [List.all_cons, ha, hb]⟩]
  simp only [Bool.false_eq_true, if_false]
  congr 1
  unfold natOfDigits digitVal
  simp

/-- `_digits` evaluated through an explicit digit slice. -/
theorem _digits_eq (cs : List Char) (n : Nat) (ds : List Char) (v : Nat)
    (hds : cs.take n = ds) (hlen : n ≤ cs.length) (hall : ds.all isAsciiDigit = true)
    (hv : natOfDigits ds = v) : _digits cs n = some v := by
  unfold _digits
  rw [if_neg]
  · rw [hds, hv]
  · intro hcon
    rcases hcon with hcon | hcon
    · omega
    · exact hcon (hds ▸ hall)

/-- The suffix interpretation always lies strictly inside ±24 hours:
the guarded branch enforces it and every other branch yields UTC. -/
theorem tzOffsetMinutes_bound (p : List Char) :
    -1440 < tzOffsetMinutes p ∧ tzOffsetMinutes p < 1440 := by
  unfold tzOffsetMinutes
  repeat' first
  | omega
  | assumption
  | split
  | dsimp only

/-- The noon timestamp 2023-06-15 12:00:00 with an arbitrary suffix:
the six fields parse, the suffix is interpreted as an offset, and the
output formats the instant shifted from that offset to UTC+05:30. -/
theorem to_ist_core_noon (p : List Char) :
    to_ist_core ('2' :: '0' :: '2' :: '3' :: '0' :: '6' :: '1' :: '5' ::
        '1' :: '2' :: '0' :: '0' :: '0' :: '0' :: p)
      = Except.ok (fmtStamp (noonSecs - tzOffsetMinutes p * 60 + istOffSec)) := by
  have h4 : _digits ('2' :: '0' :: '2' :: '3' :: '0' :: '6' :: '1' :: '5' ::
      '1' :: '2' :: '0' :: '0' :: '0' :: '0' :: p) 4 = some 2023 :=
    _digits_eq _ 4 ['2', '0', '2', '3'] 2023 rfl
      (by simp only [List.length_cons]; omega) (by decide) (by decide)
  have h6 : _digits (('2' :: '0' :: '2' :: '3' :: '0' :: '6' :: '1' :: '5' ::
      '1' :: '2' :: '0' :: '0' :: '0' :: '0' :: p).drop 4) 2 = some 6 := by
    rw [show ('2' :: '0' :: '2' :: '3' :: '0' :: '6' :: '1' :: '5' ::
      '1' :: '2' :: '0' :: '0' :: '0' :: '0' :: p).drop 4 =
      ('0' :: '6' :: '1' :: '5' :: '1' :: '2' :: '0' :: '0' :: '0' :: '0' :: p) from rfl]
    exact _digits_eq _ 2 ['0', '6'] 6 rfl
      (by simp only [List.length_cons]; omega) (by decide) (by decide)
  have h8 : _digits (('2' :: '0' :: '2' :: '3' :: '0' :: '6' :: '1' :: '5' ::
      '1' :: '2' :: '0' :: '0' :: '0' :: '0' :: p).drop 6) 2 = some 15 := by
    rw [show ('2' :: '0' :: '2' :: '3' :: '0' :: '6' :: '1' :: '5' ::
      '1' :: '2' :: '0' :: '0' :: '0' :: '0' :: p).drop 6 =
      ('1' :: '5' :: '1' :: '2' :: '0' :: '0' :: '0' :: '0' :: p) from rfl]
    exact _digits_eq _ 2 ['1', '5'] 15 rfl
      (by simp only [List.length_cons]; omega) (by decide) (by decide)
  have hh : _digits (('2' :: '0' :: '2' :: '3' :: '0' :: '6' :: '1' :: '5' ::
      '1' :: '2' :: '0' :: '0' :: '0' :: '0' :: p).drop 8) 2 = some 12 := by
    rw [show ('2' :: '0' :: '2' :: '3' :: '0' :: '6' :: '1' :: '5' ::
      '1' :: '2' :: '0' :: '0' :: '0' :: '0' :: p).drop 8 =
      ('1' :: '2' :: '0' :: '0' :: '0' :: '0' :: p) from rfl]
    exact _digits_eq _ 2 ['1', '2'] 12 rfl
      (by simp only [List.length_cons]; omega) (by decide) (by decide)
  have hm2 : _digits (('2' :: '0' :: '2' :: '3' :: '0' :: '6' :: '1' :: '5' ::
      '1' :: '2' :: '0' :: '0' :: '0' :: '0' :: p).drop 10) 2 = some 0 := by
    rw [show ('2' :: '0' :: '2' :: '3' :: '0' :: '6' :: '1' :: '5' ::
      '1' :: '2' :: '0' :: '0' :: '0' :: '0' :: p).drop 10 =
      ('0' :: '0' :: '0' :: '0' :: p) from rfl]
    exact _digits_eq _ 2 ['0', '0'] 0 rfl
      (by simp only [List.length_cons]; omega) (by decide) (by decide)
  have hs2 : _digits (('2' :: '0' :: '2' :: '3' :: '0' :: '6' :: '1' :: '5' ::
      '1' :: '2' :: '0' :: '0' :: '0' :: '0' :: p).drop 12) 2 = some 0 := by
    rw [show ('2' :: '0' :: '2' :: '3' :: '0' :: '6' :: '1' :: '5' ::
      '1' :: '2' :: '0' :: '0' :: '0' :: '0' :: p).drop 12 =
      ('0' :: '0' :: p) from rfl]
    exact _digits_eq _ 2 ['0', '0'] 0 rfl
      (by simp only [List.length_cons]; omega) (by decide) (by decide)
  have hB := tzOffsetMinutes_bound p
  unfold to_ist_core
  dsimp only
  simp only [h4, h6, h8, hh, hm2, hs2, Option.isSome_some, reduceIte]
  rw [show ('2' :: '0' :: '2' :: '3' :: '0' :: '6' :: '1' :: '5' ::
      '1' :: '2' :: '0' :: '0' :: '0' :: '0' :: p).drop 14 = p from rfl]
  rw [if_pos (show isValidDateTime 2023 6 15 12 0 0 = true from rfl)]
  rw [if_pos (show (0 : Int) ≤ secsOfDateTime 2023 6 15 12 0 0 - tzOffsetMinutes p * 60 ∧
      secsOfDateTime 2023 6 15 12 0 0 - tzOffsetMinutes p * 60 ≤ maxSec from by
    rw [show secsOfDateTime 2023 6 15 12 0 0 = 63822427200 from rfl,
      show maxSec = 315537897599 from rfl]
    omega)]
  rw [if_pos (show (0 : Int) ≤ secsOfDateTime 2023 6 15 12 0 0 - tzOffsetMinutes p * 60
        + istOffSec ∧
      secsOfDateTime 2023 6 15 12 0 0 - tzOffsetMinutes p * 60 + istOffSec ≤ maxSec from by
    rw [show secsOfDateTime 2023 6 15 12 0 0 = 63822427200 from rfl,
      show maxSec = 315537897599 from rfl, show istOffSec = 19800 from rfl]
    omega)]
  rfl

/-- C3: timezone handling.  The claimed examples: a `+05'30'` suffix
leaves noon at 12:00:00 in the target zone; a suffix-free or `Z`-marked
timestamp is treated as UTC and shifted forward 5h30m.  A five-char
suffix parses hours only (minutes default 0); a non-numeric or
out-of-range suffix silently falls back to UTC.  In general, any suffix
not starting with a sign yields UTC, and a well-formed `±HH'MM'` suffix
in range builds the offset sign×(HH hours + MM minutes) and the output
is the instant converted from that offset to UTC+05:30. -/
theorem to_ist_timezone_handling :
    (to_ist ("D:20230615120000+05" ++ String.singleton apos ++ "30" ++ String.singleton apos)
      = Except.ok "2023-06-15 12:00:00 UTC+05:30") ∧
    (to_ist "D:20230615120000" = Except.ok "2023-06-15 17:30:00 UTC+05:30") ∧
    (to_ist "D:20230615120000Z" = Except.ok "2023-06-15 17:30:00 UTC+05:30") ∧
    (to_ist "D:20230615120000+0530" = Except.ok "2023-06-15 12:30:00 UTC+05:30") ∧
    (to_ist ("D:20230615120000+XX" ++ String.singleton apos ++ "30" ++ String.singleton apos)
      = Except.ok "2023-06-15 17:30:00 UTC+05:30") ∧
    (to_ist ("D:20230615120000+99" ++ String.singleton apos ++ "00" ++ String.singleton apos)
      = Except.ok "2023-06-15 17:30:00 UTC+05:30") ∧
    (∀ c p, c ≠ '+' → c ≠ '-' →
      to_ist (String.mk ("D:20230615120000".data ++ c :: p))
        = Except.ok "2023-06-15 17:30:00 UTC+05:30") ∧
    (∀ sg a b c d, (sg = '+' ∨ sg = '-') →
      isAsciiDigit a = true → isAsciiDigit b = true →
      isAsciiDigit c = true → isAsciiDigit d = true →
      (digitVal a * 10 + digitVal b) * 60 + (digitVal c * 10 + digitVal d) < 1440 →
      to_ist (String.mk ("D:20230615120000".data ++ sg :: a :: b :: apos :: c :: d :: [apos]))
        = Except.ok (fmtStamp (noonSecs -
            (if sg = '-' then
              -((((digitVal a * 10 + digitVal b) * 60 +
                  (digitVal c * 10 + digitVal d) : Nat)) : Int)
             else ((((digitVal a * 10 + digitVal b) * 60 +
                  (digitVal c * 10 + digitVal d) : Nat)) : Int)) * 60
            + istOffSec))) := by
  refine ⟨rfl, rfl, rfl, rfl, rfl, rfl, ?_, ?_⟩
  · intro c p hplus hminus
    have hne : String.mk ("D:20230615120000".data ++ c :: p) ≠ "" := by
      intro h
      have h2 := congrArg String.data h
      simp at h2
    have htz : tzOffsetMinutes (c :: p) = 0 := by
      unfold tzOffsetMinutes
      dsimp only
      rw [if_neg]
      rintro (h | h)
      · exact hplus h
      · exact hminus h
    unfold to_ist
    rw [if_neg hne]
    have hcore : to_ist_core (stripD (String.mk ("D:20230615120000".data ++ c :: p)))
        = Except.ok (fmtStamp (noonSecs - tzOffsetMinutes (c :: p) * 60 + istOffSec)) :=
      to_ist_core_noon (c :: p)
    rw [hcore, htz]
    rfl
  · intro sg a b c d hsg ha hb hc hd hlt
    have hne : String.mk
        ("D:20230615120000".data ++ sg :: a :: b :: apos :: c :: d :: [apos]) ≠ "" := by
      intro h
      have h2 := congrArg String.data h
      simp at h2
    have htz : tzOffsetMinutes (sg :: a :: b :: apos :: c :: d :: [apos]) =
        (if sg = '-' then
          -(((digitVal a * 10 + digitVal b : Nat) : Int) * 60 +
            ((digitVal c * 10 + digitVal d : Nat) : Int))
         else (((digitVal a * 10 + digitVal b : Nat) : Int) * 60 +
            ((digitVal c * 10 + digitVal d : Nat) : Int))) := by
      unfold tzOffsetMinutes
      dsimp only
      rw [if_pos hsg]
      rw [show ((sg :: a :: b :: apos :: c :: d :: [apos]).drop 1).take 2 = [a, b] from rfl]
      rw [if_pos (show (sg :: a :: b :: apos :: c :: d :: [apos]).length ≥ 6 from by simp)]
      rw [show ((sg :: a :: b :: apos :: c :: d :: [apos]).drop 4).take 2 = [c, d] from rfl]
      rw [pyInt_two_digits ha hb, pyInt_two_digits hc hd]
      dsimp only
      by_cases hm : sg = '-'
      · rw [if_pos hm]
        split
        · rfl
        · rename_i hrange
          push_cast at hrange
          omega
      · rw [if_neg hm]
        split
        · rfl
        · rename_i hrange
          push_cast at hrange
          omega
    unfold to_ist
    rw [if_neg hne]
    have hcore : to_ist_core (stripD (String.mk
        ("D:20230615120000".data ++ sg :: a :: b :: apos :: c :: d :: [apos])))
        = Except.ok (fmtStamp (noonSecs -
            tzOffsetMinutes (sg :: a :: b :: apos :: c :: d :: [apos]) * 60 + istOffSec)) :=
      to_ist_core_noon (sg :: a :: b :: apos :: c :: d :: [apos])
    rw [hcore, htz]
    rfl

/-- C3 witness: a non-sign one-character suffix is treated as UTC, and
the well-formed suffix `-08'00'` shifts noon to 01:30:00 next day. -/
theorem to_ist_timezone_handling_w :
    to_ist (String.mk ("D:20230615120000".data ++ 'U' :: [])) =
      Except.ok "2023-06-15 17:30:00 UTC+05:30" ∧
    to_ist (String.mk ("D:20230615120000".data ++
        '-' :: '0' :: '8' :: apos :: '0' :: '0' :: [apos])) =
      Except.ok "2023-06-16 01:30:00 UTC+05:30" :=
  ⟨to_ist_timezone_handling.2.2.2.2.2.2.1 'U' [] (by decide) (by decide),
   by
     have h := to_ist_timezone_handling.2.2.2.2.2.2.2 '-' '0' '8' '0' '0' (Or.inr rfl)
       (by decide) (by decide) (by decide) (by decide) (by decide)
     rw [h]
     rfl⟩

/-! ## C4 -/

/-- C4, counterexample: a parse-accepted timestamp near `datetime.max`
makes `dt.astimezone(ist)` at line 77 — outside every try block —
raise OverflowError out of the function. -/
theorem to_ist_overflow_escapes :
    to_ist "D:99991231230000" = Except.error overflowMsg := rfl

/-- C4 (amended): for every input the function either returns a string
or lets the single uncaught exception escape: the OverflowError of the
final `astimezone` conversion when the shifted timestamp leaves the
representable year range. -/
theorem to_ist_total_except_overflow (s : String) :
    (∃ r, to_ist s = Except.ok r) ∨ to_ist s = Except.error overflowMsg := by
  unfold to_ist to_ist_core
  dsimp only
  repeat' first
  | exact Or.inl ⟨_, rfl⟩
  | exact Or.inr rfl
  | split

/-! ## C7 -/

/-- C7, counterexample: for the empty information dictionary and absent
XMP object, the metadata.py variant labels its date fields
`CreationDate (IST)` and `ModDate (IST)`, so its key list is not the
nine labels the claim names and `CreationDate` is absent from it. -/
theorem parsed_fields_labels_differ :
    ∃ m, _build_parsed_fields [] Option.none = Except.ok m ∧
      m.map Prod.fst ≠ baseLabelsApp ∧
      lookupS m "CreationDate" = Option.none :=
  ⟨baseLabelsIST.map (fun l => (l, "")), rfl, by decide, rfl⟩

/-- C7 (amended): on an empty information dictionary and absent XMP
object both variants produce exactly nine entries, every value the
empty string; the app.py variant carries exactly the nine claimed
labels, the metadata.py variant the same list with its two date labels
suffixed ` (IST)`. -/
theorem parsed_fields_empty_info :
    _build_parsed_fields [] Option.none =
      Except.ok (baseLabelsIST.map (fun l => (l, ""))) ∧
    app_build_parsed_fields [] Option.none =
      baseLabelsApp.map (fun l => (l, "")) :=
  ⟨rfl, rfl⟩

/-! ## C8 -/

/-- C8: with an embedded-metadata object present, the parsed-field map
is the nine-entry base map followed by exactly one ` (XMP)`-labelled
entry per present attribute (absent attributes contribute nothing), the
key list extends the base labels by exactly the present labels in
order, and every base entry still looks up to its base value. -/
theorem parsed_fields_xmp_overlay (info : List (String × String)) (x : XmpObj)
    (m₀ : List (String × String))
    (h : _build_parsed_fields info Option.none = Except.ok m₀) :
    _build_parsed_fields info (some x) = Except.ok (m₀ ++ xmpEntries x) ∧
    (m₀ ++ xmpEntries x).map Prod.fst =
      baseLabelsIST ++ ((xmpItems x).filter (fun p => p.2.isSome)).map Prod.fst ∧
    (xmpEntries x).length = ((xmpItems x).filter (fun p => p.2.isSome)).length ∧
    (∀ l, l ∈ m₀.map Prod.fst → lookupS (m₀ ++ xmpEntries x) l = lookupS m₀ l) := by
  cases hcd : to_ist (iget info "/CreationDate") with
  | error e => simp [_build_parsed_fields, hcd] at h
  | ok cd =>
  cases hmd : to_ist (iget info "/ModDate") with
  | error e => simp [_build_parsed_fields, hcd, hmd] at h
  | ok md =>
  simp only [_build_parsed_fields, hcd, hmd] at h
  have hm := (Except.ok.inj h).symm
  subst hm
  have hkeys : (xmpItems x).map Prod.fst =
      ["Title (XMP)", "Creator (XMP)", "Description (XMP)", "Keywords (XMP)",
       "CreatorTool (XMP)", "CreateDate (XMP)", "ModifyDate (XMP)", "Producer (XMP)"] := rfl
  have happ : applyXmp x
      [("Title", iget info "/Title"), ("Author", iget info "/Author"),
       ("Subject", iget info "/Subject"), ("Keywords", iget info "/Keywords"),
       ("Creator", iget info "/Creator"), ("Producer", iget info "/Producer"),
       ("CreationDate (IST)", cd), ("ModDate (IST)", md),
       ("Trapped", iget info "/Trapped")] =
      [("Title", iget info "/Title"), ("Author", iget info "/Author"),
       ("Subject", iget info "/Subject"), ("Keywords", iget info "/Keywords"),
       ("Creator", iget info "/Creator"), ("Producer", iget info "/Producer"),
       ("CreationDate (IST)", cd), ("ModDate (IST)", md),
       ("Trapped", iget info "/Trapped")] ++ xmpEntries x := by
    unfold applyXmp xmpEntries
    apply foldl_overlay_append
    · rw [hkeys]; decide
    · rw [hkeys]
      intro l hl
      fin_cases hl <;> simp
  refine ⟨?_, ?_, ?_, ?_⟩
  · simp only [_build_parsed_fields, hcd, hmd]
    rw [happ]
  · rw [List.map_append]
    unfold xmpEntries
    rw [keys_filterMap_overlay]
    rfl
  · have := congrArg List.length (keys_filterMap_overlay (xmpItems x))
    simpa [xmpEntries] using this
  · intro l hl
    exact lookupS_append_left hl

/-- C8 witness: the object with seven of eight attributes present
overlays exactly seven entries on the empty-dictionary base map. -/
theorem parsed_fields_xmp_overlay_w :
    _build_parsed_fields [] (some xSeven) =
      Except.ok (baseLabelsIST.map (fun l => (l, "")) ++ xmpEntries xSeven) ∧
    (xmpEntries xSeven).length = 7 :=
  ⟨(parsed_fields_xmp_overlay [] xSeven
      (baseLabelsIST.map (fun l => (l, ""))) rfl).1, rfl⟩

/-! ## C9 -/

/-- C9: the probe tries `get_xml`, `xml`, `xmpmeta` in that order; the
first conclusive access point (a callable returning, or a non-None
attribute) determines the result, a raising callable or a None/missing
attribute is skipped, and `None` comes back exactly when the object is
absent or all three points are skipped.  Both front ends define the
routine identically. -/
theorem extract_xmp_probe_order :
    (∀ xm, app_extract_xmp_xml xm = _extract_xmp_xml xm) ∧
    _extract_xmp_xml Option.none = Option.none ∧
    ∀ x : XmpObj,
      (∀ r, apYields x.get_xml r → _extract_xmp_xml (some x) = some r) ∧
      (∀ r, apSkipped x.get_xml → apYields x.xml r →
        _extract_xmp_xml (some x) = some r) ∧
      (∀ r, apSkipped x.get_xml → apSkipped x.xml → apYields x.xmpmeta r →
        _extract_xmp_xml (some x) = some r) ∧
      (_extract_xmp_xml (some x) = Option.none ↔
        apSkipped x.get_xml ∧ apSkipped x.xml ∧ apSkipped x.xmpmeta) := by
  refine ⟨app_extract_eq, rfl, fun x => ⟨?_, ?_, ?_, ?_⟩⟩
  · intro r h
    simp [_extract_xmp_xml, probeStep_of_yields h]
  · intro r h1 h2
    simp [_extract_xmp_xml, probeStep_of_skipped h1, probeStep_of_yields h2]
  · intro r h1 h2 h3
    simp [_extract_xmp_xml, probeStep_of_skipped h1, probeStep_of_skipped h2,
      probeStep_of_yields h3]
  · constructor
    · intro h
      cases hg : probeStep x.get_xml with
      | some r => simp [_extract_xmp_xml, hg] at h
      | none =>
        cases hx : probeStep x.xml with
        | some r => simp [_extract_xmp_xml, hg, hx] at h
        | none =>
          cases hm : probeStep x.xmpmeta with
          | some r => simp [_extract_xmp_xml, hg, hx, hm] at h
          | none =>
            exact ⟨(probeStep_eq_none_iff _).mp hg, (probeStep_eq_none_iff _).mp hx,
              (probeStep_eq_none_iff _).mp hm⟩
    · rintro ⟨h1, h2, h3⟩
      simp [_extract_xmp_xml, probeStep_of_skipped h1, probeStep_of_skipped h2,
        probeStep_of_skipped h3]

/-- C9 witness: an object exposing none of the three access points
yields the absence marker. -/
theorem extract_xmp_probe_order_w :
    _extract_xmp_xml (some xBare) = Option.none :=
  ((extract_xmp_probe_order.2.2 xBare).2.2.2).mpr
    ⟨Or.inl rfl, Or.inl rfl, Or.inl rfl⟩

/-! ## C10 -/

/-- C10: when the first access point the probe settles on is a callable
whose invocation returns `None`, the probe still ends there and the
coercion turns `None` into the empty string, so the function returns
`""`, not the absence marker. -/
theorem extract_xmp_call_returning_none (x : XmpObj) :
    (x.get_xml = .callable (.ok PyVal.none) →
      _extract_xmp_xml (some x) = some "") ∧
    (apSkipped x.get_xml → x.xml = .callable (.ok PyVal.none) →
      _extract_xmp_xml (some x) = some "") ∧
    (apSkipped x.get_xml → apSkipped x.xml →
      x.xmpmeta = .callable (.ok PyVal.none) →
      _extract_xmp_xml (some x) = some "") := by
  refine ⟨fun h => ?_, fun h1 h => ?_, fun h1 h2 h => ?_⟩
  · have hg : probeStep x.get_xml = some "" := by rw [h]; rfl
    simp [_extract_xmp_xml, hg]
  · have hx : probeStep x.xml = some "" := by rw [h]; rfl
    simp [_extract_xmp_xml, probeStep_of_skipped h1, hx]
  · have hm : probeStep x.xmpmeta = some "" := by rw [h]; rfl
    simp [_extract_xmp_xml, probeStep_of_skipped h1, probeStep_of_skipped h2, hm]

/-- C10 witness: the concrete object whose `get_xml` call returns
`None` produces the empty string. -/
theorem extract_xmp_call_returning_none_w :
    _extract_xmp_xml (some xCallNone) = some "" :=
  (extract_xmp_call_returning_none xCallNone).1 rfl

/-! ## C5 -/

/-- Any payload the handler receives came out of `json.loads`. -/
theorem bodyParse_from_jloads {o : Oracle} {event : List (String × PyVal)} {v : PyVal}
    (h : bodyParse o event = some v) : ∃ s, o.jloads s = Except.ok v := by
  unfold bodyParse at h
  dsimp only at h
  revert h
  generalize (if pyTruthy (dget event "body") = true then dget event "body"
    else PyVal.str "") = bv
  intro h
  cases bv with
  | str s =>
    dsimp only at h
    split at h
    · split at h
      case _ t ht =>
        cases hjl : o.jloads t with
        | ok w =>
          rw [hjl] at h
          dsimp [Except.toOption] at h
          injection h with h
          subst h
          exact ⟨t, hjl⟩
        | error e => rw [hjl] at h; simp [Except.toOption] at h
      case _ e he => simp at h
    · cases hjl : o.jloads s with
      | ok w =>
        rw [hjl] at h
        dsimp [Except.toOption] at h
        injection h with h
        subst h
        exact ⟨s, hjl⟩
      | error e => rw [hjl] at h; simp [Except.toOption] at h
  | none => simp at h
  | bool b => simp at h
  | int n => simp at h
  | list xs => simp at h
  | dict kvs => simp at h

/-- C5, counterexample: a POST whose body is the valid JSON text `null`
parses to `None`; `payload.get("file_base64")` at line 138 runs outside
every try block and raises AttributeError out of the handler, so not
every failure is surfaced as an error response. -/
theorem handler_nonobject_payload_escapes :
    handler oracleNull eventNull =
      Except.error "AttributeError: payload object has no attribute get" := rfl

/-- C5 (amended): the handler returns a response record for every event
whenever every successful `json.loads` result is a JSON object; the
single escape is the AttributeError on a valid-JSON non-object POST
body. -/
theorem handler_total_on_object_payloads (o : Oracle) (event : List (String × PyVal))
    (hjson : ∀ s v, o.jloads s = Except.ok v → ∃ kvs, v = PyVal.dict kvs) :
    ∃ r, handler o event = Except.ok r := by
  unfold handler
  split
  · exact ⟨_, rfl⟩
  split
  · exact ⟨_, rfl⟩
  cases hbp : bodyParse o event with
  | none => exact ⟨_, rfl⟩
  | some v =>
    obtain ⟨s, hs⟩ := bodyParse_from_jloads hbp
    obtain ⟨kvs, rfl⟩ := hjson s v hs
    dsimp only
    repeat' first
    | exact ⟨_, rfl⟩
    | split

/-- C5 witness: with an oracle whose `json.loads` always yields the
empty object, the handler answers every event, here a POST. -/
theorem handler_total_on_object_payloads_w :
    ∃ r, handler oracleObj eventEmptyObj = Except.ok r :=
  handler_total_on_object_payloads oracleObj eventEmptyObj
    (fun _ _ h => ⟨[], (Except.ok.inj h).symm⟩)

/-! ## C6 -/

/-- C6: the complete status and error mapping of the handler: OPTIONS
answers 200 `ok` regardless of body, any other non-POST method answers
405 `Use POST`, an unparsable body answers 400 `Invalid JSON body`, an
object payload with missing/falsy `file_base64` answers 400
`Missing file_base64`, a failed extraction (document open or parsed
field assembly) answers 400 with the `Failed to read PDF metadata: `
prefix, and a successful extraction answers 200 with `ok` and the
six-field result object. -/
theorem handler_status_mapping (o : Oracle) (event : List (String × PyVal)) :
    (pyEqStr (dget event "httpMethod") "OPTIONS" = true →
      handler o event = Except.ok (response 200 (.dict [("ok", .bool true)]))) ∧
    (pyEqStr (dget event "httpMethod") "OPTIONS" = false →
      pyEqStr (dget event "httpMethod") "POST" = false →
      handler o event = Except.ok (response 405 (.dict [("error", .str "Use POST")]))) ∧
    (pyEqStr (dget event "httpMethod") "OPTIONS" = false →
      pyEqStr (dget event "httpMethod") "POST" = true →
      bodyParse o event = Option.none →
      handler o event = Except.ok (response 400 (.dict [("error", .str "Invalid JSON body")]))) ∧
    (∀ kvs, pyEqStr (dget event "httpMethod") "OPTIONS" = false →
      pyEqStr (dget event "httpMethod") "POST" = true →
      bodyParse o event = some (PyVal.dict kvs) →
      pyTruthy (dget kvs "file_base64") = false →
      handler o event = Except.ok (response 400 (.dict [("error", .str "Missing file_base64")]))) ∧
    (∀ kvs msg, pyEqStr (dget event "httpMethod") "OPTIONS" = false →
      pyEqStr (dget event "httpMethod") "POST" = true →
      bodyParse o event = some (PyVal.dict kvs) →
      pyTruthy (dget kvs "file_base64") = true →
      o.pdfExtract (dget kvs "file_base64") = Except.error msg →
      handler o event = Except.ok (response 400
        (.dict [("error", .str ("Failed to read PDF metadata: " ++ msg))]))) ∧
    (∀ kvs pdf msg, pyEqStr (dget event "httpMethod") "OPTIONS" = false →
      pyEqStr (dget event "httpMethod") "POST" = true →
      bodyParse o event = some (PyVal.dict kvs) →
      pyTruthy (dget kvs "file_base64") = true →
      o.pdfExtract (dget kvs "file_base64") = Except.ok pdf →
      _build_parsed_fields pdf.info pdf.xmp = Except.error msg →
      handler o event = Except.ok (response 400
        (.dict [("error", .str ("Failed to read PDF metadata: " ++ msg))]))) ∧
    (∀ kvs pdf parsed, pyEqStr (dget event "httpMethod") "OPTIONS" = false →
      pyEqStr (dget event "httpMethod") "POST" = true →
      bodyParse o event = some (PyVal.dict kvs) →
      pyTruthy (dget kvs "file_base64") = true →
      o.pdfExtract (dget kvs "file_base64") = Except.ok pdf →
      _build_parsed_fields pdf.info pdf.xmp = Except.ok parsed →
      handler o event = Except.ok (response 200 (.dict
        [("ok", .bool true),
         ("result", .dict
           [("filename",
             if pyTruthy (dget kvs "filename") = true then dget kvs "filename"
             else .str "upload.pdf"),
            ("size_bytes", .int pdf.sizeBytes),
            ("page_count", .int pdf.pageCount),
            ("parsed", .dict (parsed.map (fun p => (p.1, PyVal.str p.2)))),
            ("raw_info", .dict (pdf.info.map (fun p => (p.1, PyVal.str p.2)))),
            ("xmp_xml",
              match _extract_xmp_xml pdf.xmp with
              | some s => PyVal.str s
              | Option.none => PyVal.none)])]))) := by
  refine ⟨fun h1 => ?_, fun h1 h2 => ?_, fun h1 h2 h3 => ?_, fun kvs h1 h2 h3 h4 => ?_,
    fun kvs msg h1 h2 h3 h4 h5 => ?_, fun kvs pdf msg h1 h2 h3 h4 h5 h6 => ?_,
    fun kvs pdf parsed h1 h2 h3 h4 h5 h6 => ?_⟩
  · simp [handler, h1]
  · simp [handler, h1, h2]
  · simp [handler, h1, h2, h3]
  · simp [handler, h1, h2, h3, h4]
  · simp [handler, h1, h2, h3, h4, h5]
  · simp [handler, h1, h2, h3, h4, h5, h6]
  · simp [handler, h1, h2, h3, h4, h5, h6]

/-- C6 witness: each branch of the mapping exercised on a concrete
event and oracle: pre-flight, GET, empty-object POST, unparsable body,
failed extraction, and a successful one-page extraction. -/
theorem handler_status_mapping_w :
    handler oracleObj eventOptions = Except.ok (response 200 (.dict [("ok", .bool true)])) ∧
    handler oracleObj eventGet = Except.ok (response 405 (.dict [("error", .str "Use POST")])) ∧
    handler oracleNull eventPost =
      Except.ok (response 400 (.dict [("error", .str "Invalid JSON body")])) ∧
    handler oracleObj eventEmptyObj =
      Except.ok (response 400 (.dict [("error", .str "Missing file_base64")])) ∧
    handler oracleFail eventPost = Except.ok (response 400
      (.dict [("error", .str "Failed to read PDF metadata: EOF marker not found")])) ∧
    handler oracleGood eventPost = Except.ok (response 200 (.dict
      [("ok", .bool true),
       ("result", .dict
         [("filename", .str "upload.pdf"),
          ("size_bytes", .int 3),
          ("page_count", .int 1),
          ("parsed", .dict (baseLabelsIST.map (fun l => (l, PyVal.str "")))),
          ("raw_info", .dict []),
          ("xmp_xml", PyVal.none)])])) :=
  ⟨(handler_status_mapping oracleObj eventOptions).1 rfl,
   (handler_status_mapping oracleObj eventGet).2.1 rfl rfl,
   (handler_status_mapping oracleNull eventPost).2.2.1 rfl rfl rfl,
   (handler_status_mapping oracleObj eventEmptyObj).2.2.2.1 [] rfl rfl rfl rfl,
   (handler_status_mapping oracleFail eventPost).2.2.2.2.1
     [("file_base64", .str "AAAA")] "EOF marker not found" rfl rfl rfl rfl rfl,
   (handler_status_mapping oracleGood eventPost).2.2.2.2.2.2
     [("file_base64", .str "AAAA")] ⟨3, 1, [], Option.none⟩
     (baseLabelsIST.map (fun l => (l, ""))) rfl rfl rfl rfl rfl rfl⟩

end PdfMeta
